import Mathlib

/-!
Verification development for the SnipeBT feature-parity engine: a shallow
embedding of the candlestick pattern detector, context scorer, feature
assembler, scaler pipeline and inference loop
(src/deepLearning/add_patterns_to_existing_data.py, preprocessor.py,
convert_scalers.py, inference.py), with theorems checking the specified
properties. Numeric values are modelled as exact rationals (ℚ).
-/

namespace SnipeBT

/-- One OHLCV candle (data model §3): open, high, low, close, volume. -/
structure Candle where
  «open» : ℚ
  high : ℚ
  low : ℚ
  close : ℚ
  volume : ℚ
deriving DecidableEq

/-- Token-level context fields, as read by the Python code
(`context['liquidity']`, `['marketCap']`, `['holders']`, `['age']`,
`['volume24h']`). -/
structure TokenContext where
  liquidity : ℚ
  marketCap : ℚ
  holders : ℚ
  age : ℚ
  volume24h : ℚ
deriving DecidableEq

/-- The result record of `detect_candlestick_patterns`
(add_patterns_to_existing_data.py lines 14-90). -/
structure PatternFeatures where
  has_bullish_pin : Bool
  has_bearish_pin : Bool
  has_bullish_engulfing : Bool
  has_bearish_engulfing : Bool
  wick_rejection_ratio : ℚ
  body_to_range_ratio : ℚ
  pattern_confidence : ℚ
  context_score : ℚ
deriving DecidableEq

/-- The all-false/zero default returned when fewer than 2 candles are given
(add_patterns_to_existing_data.py lines 14-24). -/
def defaultPatternFeatures : PatternFeatures :=
  { has_bullish_pin := false
    has_bearish_pin := false
    has_bullish_engulfing := false
    has_bearish_engulfing := false
    wick_rejection_ratio := 0
    body_to_range_ratio := 0
    pattern_confidence := 0
    context_score := 0 }

/-- Placeholder candle used only as the (unreachable) default of list
accessors that are guarded by length checks in the code. -/
def dummyCandle : Candle := ⟨0, 0, 0, 0, 0⟩

/-- Python max over a nonempty list (default 0 for the empty list, which the
guarded call sites never reach). -/
def listMax : List ℚ → ℚ
  | [] => 0
  | x :: xs => xs.foldl max x

/-- Python min over a nonempty list (default 0 for the empty list, which the
guarded call sites never reach). -/
def listMin : List ℚ → ℚ
  | [] => 0
  | x :: xs => xs.foldl min x

/-- Per-candle metric `body = abs(close - open)`
(add_patterns_to_existing_data.py line 31). -/
def body (c : Candle) : ℚ := |c.close - c.«open»|

/-- Per-candle metric `upper_wick = high - max(close, open)` (line 32). -/
def upper_wick (c : Candle) : ℚ := c.high - max c.close c.«open»

/-- Per-candle metric `lower_wick = min(close, open) - low` (line 33). -/
def lower_wick (c : Candle) : ℚ := min c.close c.«open» - c.low

/-- Per-candle metric `total_range = high - low` (line 34). -/
def total_range (c : Candle) : ℚ := c.high - c.low

/-- Trend term of `calculate_context_score`
(add_patterns_to_existing_data.py lines 99-111): price momentum over the last
20 candles. In Python, division by a zero `first_price` would raise; in this
exact-arithmetic embedding `x / 0 = 0`, which lands in the neutral `+0`
branch. -/
def trend_term (candles : List Candle) : ℚ :=
  if 20 ≤ candles.length then
    let recent := candles.drop (candles.length - 20)
    let first_price := (recent.headD dummyCandle).close
    let last_price := (recent.getLastD dummyCandle).close
    let price_change := (last_price - first_price) / first_price * 100
    if 10 < price_change then 0.30
    else if 0 < price_change then 0.15
    else if price_change < -10 then 0.10
    else 0
  else 0

/-- Support/resistance term of `calculate_context_score` (lines 113-130):
position of the last close within the recent high/low range, guarded against
a degenerate range. -/
def position_term (candles : List Candle) : ℚ :=
  if 20 ≤ candles.length then
    let recent := candles.drop (candles.length - 20)
    let recent_high := listMax (recent.map Candle.high)
    let recent_low := listMin (recent.map Candle.low)
    let current_price := (candles.getLastD dummyCandle).close
    if recent_high ≠ recent_low then
      let price_position := (current_price - recent_low) / (recent_high - recent_low)
      if price_position < 0.20 then 0.25
      else if 0.90 < price_position then 0.20
      else 0
    else 0
  else 0

/-- Liquidity term of `calculate_context_score` (lines 132-137). -/
def liquidity_term (token_context : TokenContext) : ℚ :=
  if 500000 < token_context.liquidity then 0.20
  else if 100000 < token_context.liquidity then 0.10
  else 0

/-- Port of `calculate_context_score` (add_patterns_to_existing_data.py
lines 93-139): sum of the trend, position and liquidity increments, capped
at 1. -/
def calculate_context_score (candles : List Candle) (token_context : TokenContext) : ℚ :=
  min (trend_term candles + position_term candles + liquidity_term token_context) 1

/-- Port of `detect_candlestick_patterns` (add_patterns_to_existing_data.py
lines 10-90). Booleans are decided comparisons; `pattern_confidence` is the
running maximum across the four rules, in source order. -/
def detect_candlestick_patterns (candles : List Candle) (context : TokenContext) :
    PatternFeatures :=
  if candles.length < 2 then defaultPatternFeatures
  else
    let last_candle := candles.getLastD dummyCandle
    let prev_candle := (candles.drop (candles.length - 2)).headD dummyCandle
    let is_bullish : Bool := decide (last_candle.«open» < last_candle.close)
    let is_bearish : Bool := decide (last_candle.close < last_candle.«open»)
    let body_to_range : ℚ :=
      if 0 < total_range last_candle then body last_candle / total_range last_candle else 0
    let wick_rejection : ℚ :=
      if 0 < body last_candle then
        max (upper_wick last_candle) (lower_wick last_candle) / body last_candle
      else 0
    let has_bullish_pin : Bool :=
      decide (body last_candle * 2.0 < lower_wick last_candle) && is_bullish
    let has_bearish_pin : Bool :=
      decide (body last_candle * 2.0 < upper_wick last_candle) && is_bearish
    let bullish_wick_strength : ℚ :=
      if 0 < total_range last_candle then
        lower_wick last_candle / total_range last_candle * 100
      else 0
    let bearish_wick_strength : ℚ :=
      if 0 < total_range last_candle then
        upper_wick last_candle / total_range last_candle * 100
      else 0
    let conf1 : ℚ :=
      if has_bullish_pin then max 0 (min (60 + bullish_wick_strength * 0.3) 80 / 100) else 0
    let conf2 : ℚ :=
      if has_bearish_pin then max conf1 (min (60 + bearish_wick_strength * 0.3) 80 / 100)
      else conf1
    let engulfs_previous : Bool := decide (body prev_candle * 0.6 < body last_candle)
    let has_bullish_engulfing : Bool :=
      is_bullish && engulfs_previous && decide ((0.6 : ℚ) < body_to_range)
    let has_bearish_engulfing : Bool :=
      is_bearish && engulfs_previous && decide ((0.6 : ℚ) < body_to_range)
    let conf3 : ℚ := if has_bullish_engulfing then max conf2 0.65 else conf2
    let conf4 : ℚ := if has_bearish_engulfing then max conf3 0.65 else conf3
    { has_bullish_pin := has_bullish_pin
      has_bearish_pin := has_bearish_pin
      has_bullish_engulfing := has_bullish_engulfing
      has_bearish_engulfing := has_bearish_engulfing
      wick_rejection_ratio := min wick_rejection 10
      body_to_range_ratio := body_to_range
      pattern_confidence := conf4
      context_score := calculate_context_score candles context }

/-- The OHLCV invariant of the data model (§3, glossary): within one
observation the open and close lie between the low and the high. -/
def ValidCandle (c : Candle) : Prop :=
  c.low ≤ c.«open» ∧ c.low ≤ c.close ∧ c.«open» ≤ c.high ∧ c.close ≤ c.high

/-- The bullish-pin confidence candidate as the spec words it (§4.1):
`min(60 + (lowerWick/totalRange*100)*0.3, 80)/100` when the range is
positive, `0.60` otherwise. -/
def bullish_pin_candidate (c : Candle) : ℚ :=
  if 0 < total_range c then min (60 + lower_wick c / total_range c * 100 * 0.3) 80 / 100
  else 0.60

/-- Robust scaler parameters as fitted by the preprocessor and pickled for
inference: per-feature center and scale plus the recorded fit-time feature
count (sklearn `center_`, `scale_`, `n_features_in_`). -/
structure RobustScalerParams where
  center_ : List ℚ
  scale_ : List ℚ
  n_features_in_ : ℕ
deriving DecidableEq

/-- Standard scaler parameters: per-feature mean, scale and variance plus the
recorded fit-time feature count. -/
structure StandardScalerParams where
  mean_ : List ℚ
  scale_ : List ℚ
  var_ : List ℚ
  n_features_in_ : ℕ
deriving DecidableEq

/-- Elementwise scaling of one row: x ↦ (x - center)/scale per feature. -/
def scaleRow (center scale row : List ℚ) : List ℚ :=
  List.zipWith (fun x cs => (x - cs.1) / cs.2) row (center.zip scale)

/-- sklearn `RobustScaler.transform` on one row, as invoked by
`InferenceServer.preprocess` (inference.py line 85): checks the input width
against the recorded fit-time feature count (a mismatch raises, modelled as
`Except.error`), then applies (x - center)/scale. Modelled from the
library's documented behaviour at this call boundary. -/
def robustTransformRow (p : RobustScalerParams) (row : List ℚ) : Except String (List ℚ) :=
  if row.length = p.n_features_in_ then .ok (scaleRow p.center_ p.scale_ row)
  else .error "DimensionMismatchError"

/-- sklearn `StandardScaler.transform` on one row, as invoked by
`InferenceServer.preprocess` (inference.py lines 86-87). -/
def standardTransformRow (p : StandardScalerParams) (row : List ℚ) : Except String (List ℚ) :=
  if row.length = p.n_features_in_ then .ok (scaleRow p.mean_ p.scale_ row)
  else .error "DimensionMismatchError"

/-- The three fitted scalers loaded once at startup (inference.py
lines 46-50, preprocessor.py lines 219-223). -/
structure Scalers where
  candle_scaler : RobustScalerParams
  context_scaler : StandardScalerParams
  indicator_scaler : StandardScalerParams

/-- A parsed inference request (inference.py preprocess docstring,
lines 58-66): candles matrix plus the context/indicators/patterns vectors. -/
structure RawRequest where
  candles : List (List ℚ)
  context : List ℚ
  indicators : List ℚ
  patterns : List ℚ

/-- The opaque model boundary (spec §4.5/§9): predict(candlesTensor,
combinedTensor) → (profitableScore, maxProfitValue, rugScore). The sigmoid
applied in inference.py lines 120-121 is folded inside this opaque
collaborator; its invocation may fail. -/
def Model : Type := List (List ℚ) → List ℚ → Except String (ℚ × ℚ × ℚ)

/-- Port of `InferenceServer.preprocess` (inference.py lines 54-97): shape
validation of the four fields, scaling of candles/context/indicators,
patterns passed through unscaled, then combined = context ++ indicators ++
patterns (length 18). -/
def preprocess (s : Scalers) (raw : RawRequest) : Except String (List (List ℚ) × List ℚ) :=
  if ¬ (raw.candles.length = 100 ∧ raw.candles.all (fun r => r.length = 5)) then
    .error "Expected candles shape (100, 5)"
  else if raw.context.length ≠ 5 then .error "Expected context shape (5,)"
  else if raw.indicators.length ≠ 5 then .error "Expected indicators shape (5,)"
  else if raw.patterns.length ≠ 8 then .error "Expected patterns shape (8,)"
  else do
    let candles_scaled ← raw.candles.mapM (robustTransformRow s.candle_scaler)
    let context_scaled ← standardTransformRow s.context_scaler raw.context
    let indicators_scaled ← standardTransformRow s.indicator_scaler raw.indicators
    return (candles_scaled, context_scaled ++ indicators_scaled ++ raw.patterns)

/-- A wire response record (inference.py lines 129-143). -/
structure InferResponse where
  error : Option String
  profitable : ℚ
  max_profit : ℚ
  rug_risk : ℚ
  confidence : ℚ
deriving DecidableEq

/-- Fail-closed response with an error description (inference.py
lines 136-143 and 166-184): profitable 0.0, max_profit 0.0, rug_risk 1.0,
confidence 0.0. -/
def errorResponse (e : String) : InferResponse :=
  { error := some e, profitable := 0, max_profit := 0, rug_risk := 1, confidence := 0 }

/-- Successful response (inference.py lines 124-134): confidence is the mean
distance of the two probability scores from the 0.5 decision boundary. -/
def successResponse (profitable_prob max_profit_value rug_prob : ℚ) : InferResponse :=
  { error := none
    profitable := profitable_prob
    max_profit := max_profit_value
    rug_risk := rug_prob
    confidence := (|profitable_prob - 0.5| * 2 + |rug_prob - 0.5| * 2) / 2 }

/-- Port of `InferenceServer.predict` (inference.py lines 99-143): any
failure in preprocessing or in the model invocation is caught by the
try/except and converted to the fail-closed error response. -/
def predict (s : Scalers) (model : Model) (raw : RawRequest) : InferResponse :=
  match preprocess s raw with
  | .error e => errorResponse e
  | .ok (candles, combined) =>
    match model candles combined with
    | .error e => errorResponse e
    | .ok (profitable_prob, max_profit_value, rug_prob) =>
      successResponse profitable_prob max_profit_value rug_prob

/-- Handling of one non-blank stripped line inside `InferenceServer.run`
(inference.py lines 156-184): JSON parsing is the external `parse`
collaborator; a parse failure yields the "Invalid JSON" error response, and
every other failure is handled inside `predict`. -/
def handle_line (parse : String → Except String RawRequest) (s : Scalers) (model : Model)
    (line : String) : InferResponse :=
  match parse line with
  | .error e => errorResponse ("Invalid JSON: " ++ e)
  | .ok req => predict s model req

/-- Python `str.strip()` (inference.py line 152): drop leading and trailing
whitespace characters. -/
def strip (line : String) : String :=
  String.mk (((line.toList.dropWhile Char.isWhitespace).reverse.dropWhile
    Char.isWhitespace).reverse)

/-- Port of the `InferenceServer.run` loop (inference.py lines 145-184) over
the list of input lines: each line is stripped, blank lines are skipped with
no response, and every non-blank line yields exactly one response; the loop
ends only at end of input. -/
def run (parse : String → Except String RawRequest) (s : Scalers) (model : Model) :
    List String → List InferResponse
  | [] => []
  | line :: rest =>
    if strip line = "" then run parse s model rest
    else handle_line parse s model (strip line) :: run parse s model rest

/-- One exported robust scaler entry of scalers.json (convert_scalers.py
lines 44-52). -/
structure RobustScalerDoc where
  type : String
  center_ : List ℚ
  scale_ : List ℚ
  n_features_in_ : ℕ
deriving DecidableEq

/-- One exported standard scaler entry of scalers.json (convert_scalers.py
lines 54-76). -/
structure StandardScalerDoc where
  type : String
  mean_ : List ℚ
  scale_ : List ℚ
  var_ : List ℚ
  n_features_in_ : ℕ
deriving DecidableEq

/-- The scalers.json document (convert_scalers.py lines 41-81). -/
structure ScalerJson where
  candle_scaler : RobustScalerDoc
  context_scaler : StandardScalerDoc
  indicator_scaler : StandardScalerDoc
deriving DecidableEq

/-- Port of `convert_scalers` (convert_scalers.py lines 41-81): the fitted
parameter arrays are copied verbatim into the structured document (Python's
json module round-trips float64 values exactly via repr). -/
def convert_scalers (s : Scalers) : ScalerJson :=
  { candle_scaler :=
      { type := "RobustScaler"
        center_ := s.candle_scaler.center_
        scale_ := s.candle_scaler.scale_
        n_features_in_ := s.candle_scaler.n_features_in_ }
    context_scaler :=
      { type := "StandardScaler"
        mean_ := s.context_scaler.mean_
        scale_ := s.context_scaler.scale_
        var_ := s.context_scaler.var_
        n_features_in_ := s.context_scaler.n_features_in_ }
    indicator_scaler :=
      { type := "StandardScaler"
        mean_ := s.indicator_scaler.mean_
        scale_ := s.indicator_scaler.scale_
        var_ := s.indicator_scaler.var_
        n_features_in_ := s.indicator_scaler.n_features_in_ } }

/-- The serving-runtime transform read back from the imported document, per
the usage template printed by convert_scalers.py (lines 105-119): row value
↦ (val - center_[i]) / scale_[i]. -/
def json_robust_transform (d : RobustScalerDoc) (row : List ℚ) : List ℚ :=
  scaleRow d.center_ d.scale_ row

/-- The serving-runtime standard transform read back from the imported
document (convert_scalers.py lines 114-119 and 169-189). -/
def json_standard_transform (d : StandardScalerDoc) (row : List ℚ) : List ℚ :=
  scaleRow d.mean_ d.scale_ row

/-- Indicator fields read by the preprocessor (preprocessor.py lines 78-85). -/
structure IndicatorSet where
  rsi : ℚ
  macd : ℚ
  ema_fast : ℚ
  ema_slow : ℚ
  bbands_width : ℚ

/-- Labels of a training example (preprocessor.py lines 106-109). -/
structure ExampleLabels where
  profitable : Bool
  max_profit : ℚ
  rug_risk : Bool

/-- One dataset example as the preprocessor reads it; the `patterns` field is
optional (preprocessor.py lines 88-104). -/
structure TrainingExample where
  candles : List Candle
  context : TokenContext
  indicators : IndicatorSet
  patterns : Option PatternFeatures
  labels : ExampleLabels

/-- Python's `1.0 if b else 0.0` (preprocessor.py lines 92-95). -/
def boolToFloat (b : Bool) : ℚ := if b then 1 else 0

/-- Context feature extraction (preprocessor.py lines 69-75). -/
def context_vector (e : TrainingExample) : List ℚ :=
  [e.context.liquidity, e.context.marketCap, e.context.holders, e.context.age,
   e.context.volume24h]

/-- Indicator feature extraction (preprocessor.py lines 79-85). -/
def indicator_vector (e : TrainingExample) : List ℚ :=
  [e.indicators.rsi, e.indicators.macd, e.indicators.ema_fast, e.indicators.ema_slow,
   e.indicators.bbands_width]

/-- Pattern feature extraction with the zero-vector fallback for a missing
`patterns` field (preprocessor.py lines 88-104). -/
def pattern_vector (e : TrainingExample) : List ℚ :=
  match e.patterns with
  | some p =>
    [boolToFloat p.has_bullish_pin, boolToFloat p.has_bearish_pin,
     boolToFloat p.has_bullish_engulfing, boolToFloat p.has_bearish_engulfing,
     p.wick_rejection_ratio, p.body_to_range_ratio, p.pattern_confidence, p.context_score]
  | none => List.replicate 8 0

/-- One row of X_combined (preprocessor.py line 139): scaled context ++
scaled indicators ++ patterns. -/
def combined_row (context_scaled indicators_scaled patterns : List ℚ) : List ℚ :=
  context_scaled ++ indicators_scaled ++ patterns

/-- Per-feature mean over a matrix of rows, the statistic StandardScaler.fit
records (column sum divided by the number of rows). -/
def fit_mean (rows : List (List ℚ)) (n_features : ℕ) : List ℚ :=
  (List.range n_features).map fun j => (rows.map fun r => r.getD j 0).sum / rows.length

/-- The mean statistic the context StandardScaler is fitted with when
`load_and_preprocess` runs `self.context_scaler.fit_transform(X_context)`
(preprocessor.py line 135): X_context stacks the context vectors of ALL
loaded examples, and the train/val/test split (lines 148-162) happens only
after this fit. -/
def context_fit_mean (examples : List TrainingExample) : List ℚ :=
  fit_mean (examples.map context_vector) 5

/-- Decidable equality for Except results, used to evaluate the embedding at
concrete inputs. -/
instance instDecidableEqExcept {ε α : Type} [DecidableEq ε] [DecidableEq α] :
    DecidableEq (Except ε α) :=
  fun a b =>
    match a, b with
    | .ok x, .ok y => if h : x = y then .isTrue (by rw [h]) else .isFalse (by simp [h])
    | .error x, .error y => if h : x = y then .isTrue (by rw [h]) else .isFalse (by simp [h])
    | .ok _, .error _ => .isFalse (by simp)
    | .error _, .ok _ => .isFalse (by simp)

/-- A parse collaborator that always fails, for evaluating the loop at
concrete inputs. -/
def stubParse : String → Except String RawRequest := fun _ => .error "stub"

/-- A concrete fitted robust scaler with center 0 and scale 1 on 5 features. -/
def identityRobust : RobustScalerParams :=
  { center_ := List.replicate 5 0, scale_ := List.replicate 5 1, n_features_in_ := 5 }

/-- A concrete fitted standard scaler with mean 0 and scale 1 on 5 features. -/
def identityStandard : StandardScalerParams :=
  { mean_ := List.replicate 5 0, scale_ := List.replicate 5 1, var_ := List.replicate 5 1,
    n_features_in_ := 5 }

/-- A concrete scaler bundle for evaluating the serving pipeline. -/
def identityScalers : Scalers :=
  { candle_scaler := identityRobust, context_scaler := identityStandard,
    indicator_scaler := identityStandard }

/-- The stub model of spec §8, returning (0.7, 4.0, 0.05) on every input. -/
def stubModel : Model := fun _ _ => .ok (0.7, 4.0, 0.05)

/-- The end-to-end example request of spec §8: 100 identical candles plus
fixed context, indicator and pattern vectors. -/
def exampleRequest : RawRequest :=
  { candles := List.replicate 100 [0.001, 0.0012, 0.0009, 0.0011, 1000]
    context := [500000, 1000000, 150, 2.5, 250000]
    indicators := [55, 0.0001, 0.0011, 0.001, 0.05]
    patterns := [1, 0, 1, 0, 3.5, 0.7, 0.75, 0.6] }

/-- A concrete dataset example with an all-zero context vector and no
patterns field. -/
def exampleA : TrainingExample :=
  { candles := [], context := ⟨0, 0, 0, 0, 0⟩, indicators := ⟨0, 0, 0, 0, 0⟩,
    patterns := none, labels := ⟨false, 0, false⟩ }

/-- A concrete dataset example with an all-two context vector. -/
def exampleB : TrainingExample :=
  { candles := [], context := ⟨2, 2, 2, 2, 2⟩, indicators := ⟨0, 0, 0, 0, 0⟩,
    patterns := none, labels := ⟨false, 0, false⟩ }

/-- C3: for every candle sequence (of any length, including fewer than 20
candles) and every TokenContext, the ContextScorer result is within [0,1]:
each term is non-negative and the final value is min(sum of terms, 1.0). -/
theorem context_score_bounds (candles : List Candle) (token_context : TokenContext) :
    0 ≤ trend_term candles ∧ 0 ≤ position_term candles ∧ 0 ≤ liquidity_term token_context ∧
    calculate_context_score candles token_context
      = min (trend_term candles + position_term candles + liquidity_term token_context) 1 ∧
    0 ≤ calculate_context_score candles token_context ∧
    calculate_context_score candles token_context ≤ 1 := by
  have ht : 0 ≤ trend_term candles := by
    simp only [trend_term]; split_ifs <;> norm_num
  have hp : 0 ≤ position_term candles := by
    simp only [position_term]; split_ifs <;> norm_num
  have hl : 0 ≤ liquidity_term token_context := by
    simp only [liquidity_term]; split_ifs <;> norm_num
  refine ⟨ht, hp, hl, rfl, ?_, ?_⟩
  · exact le_min (by linarith) (by norm_num)
  · exact min_le_right _ _

/-- C5: for every candle sequence of length strictly less than 2, the
detector returns the all-false/zero default: all four boolean pattern flags
are false and the four ratio fields are all 0. -/
theorem detect_short_default (candles : List Candle) (context : TokenContext)
    (h : candles.length < 2) :
    (detect_candlestick_patterns candles context).has_bullish_pin = false ∧
    (detect_candlestick_patterns candles context).has_bearish_pin = false ∧
    (detect_candlestick_patterns candles context).has_bullish_engulfing = false ∧
    (detect_candlestick_patterns candles context).has_bearish_engulfing = false ∧
    (detect_candlestick_patterns candles context).wick_rejection_ratio = 0 ∧
    (detect_candlestick_patterns candles context).body_to_range_ratio = 0 ∧
    (detect_candlestick_patterns candles context).pattern_confidence = 0 ∧
    (detect_candlestick_patterns candles context).context_score = 0 := by
  unfold detect_candlestick_patterns
  rw [if_pos h]
  simp [defaultPatternFeatures]

/-- Witness for C5 at a one-candle sequence. -/
theorem detect_short_default_witness :
    (detect_candlestick_patterns [⟨1, 2, 0, 1, 5⟩] ⟨0, 0, 0, 0, 0⟩).has_bullish_pin = false ∧
    (detect_candlestick_patterns [⟨1, 2, 0, 1, 5⟩] ⟨0, 0, 0, 0, 0⟩).has_bearish_pin = false ∧
    (detect_candlestick_patterns [⟨1, 2, 0, 1, 5⟩] ⟨0, 0, 0, 0, 0⟩).has_bullish_engulfing
      = false ∧
    (detect_candlestick_patterns [⟨1, 2, 0, 1, 5⟩] ⟨0, 0, 0, 0, 0⟩).has_bearish_engulfing
      = false ∧
    (detect_candlestick_patterns [⟨1, 2, 0, 1, 5⟩] ⟨0, 0, 0, 0, 0⟩).wick_rejection_ratio = 0 ∧
    (detect_candlestick_patterns [⟨1, 2, 0, 1, 5⟩] ⟨0, 0, 0, 0, 0⟩).body_to_range_ratio = 0 ∧
    (detect_candlestick_patterns [⟨1, 2, 0, 1, 5⟩] ⟨0, 0, 0, 0, 0⟩).pattern_confidence = 0 ∧
    (detect_candlestick_patterns [⟨1, 2, 0, 1, 5⟩] ⟨0, 0, 0, 0, 0⟩).context_score = 0 :=
  detect_short_default [⟨1, 2, 0, 1, 5⟩] ⟨0, 0, 0, 0, 0⟩ (by decide)

/-- C4: for every candle sequence of length at least 2, the detector output
has wick_rejection_ratio ≤ 10 and body_to_range_ratio in [0,1] (the upper
bound under the OHLCV invariant of the final candle), with
body_to_range_ratio = 0 whenever the final candle's total range is 0. -/
theorem detect_ratio_bounds (candles : List Candle) (context : TokenContext)
    (h2 : 2 ≤ candles.length) :
    (detect_candlestick_patterns candles context).wick_rejection_ratio ≤ 10 ∧
    0 ≤ (detect_candlestick_patterns candles context).body_to_range_ratio ∧
    (ValidCandle (candles.getLastD dummyCandle) →
      (detect_candlestick_patterns candles context).body_to_range_ratio ≤ 1) ∧
    (total_range (candles.getLastD dummyCandle) = 0 →
      (detect_candlestick_patterns candles context).body_to_range_ratio = 0) := by
  have hlen : ¬ candles.length < 2 := by omega
  simp only [detect_candlestick_patterns, if_neg hlen]
  refine ⟨min_le_right _ _, ?_, ?_, ?_⟩
  · split_ifs with h
    · exact div_nonneg (abs_nonneg _) h.le
    · exact le_rfl
  · rintro ⟨v1, v2, v3, v4⟩
    split_ifs with h
    · refine (div_le_one h).mpr ?_
      have hb : |(candles.getLastD dummyCandle).close - (candles.getLastD dummyCandle).«open»| ≤
          (candles.getLastD dummyCandle).high - (candles.getLastD dummyCandle).low := by
        rw [abs_le]
        constructor <;> linarith
      simpa [body, total_range] using hb
    · norm_num
  · intro h0
    rw [if_neg]
    rw [h0]
    exact lt_irrefl 0

/-- Witness for C4 at a concrete two-candle sequence. -/
theorem detect_ratio_bounds_witness :
    (detect_candlestick_patterns [⟨1, 1, 1, 1, 1⟩, ⟨4, 5, 1, 5, 0⟩]
        ⟨0, 0, 0, 0, 0⟩).wick_rejection_ratio ≤ 10 ∧
    0 ≤ (detect_candlestick_patterns [⟨1, 1, 1, 1, 1⟩, ⟨4, 5, 1, 5, 0⟩]
        ⟨0, 0, 0, 0, 0⟩).body_to_range_ratio ∧
    (ValidCandle (([⟨1, 1, 1, 1, 1⟩, ⟨4, 5, 1, 5, 0⟩] : List Candle).getLastD dummyCandle) →
      (detect_candlestick_patterns [⟨1, 1, 1, 1, 1⟩, ⟨4, 5, 1, 5, 0⟩]
        ⟨0, 0, 0, 0, 0⟩).body_to_range_ratio ≤ 1) ∧
    (total_range (([⟨1, 1, 1, 1, 1⟩, ⟨4, 5, 1, 5, 0⟩] : List Candle).getLastD dummyCandle) = 0 →
      (detect_candlestick_patterns [⟨1, 1, 1, 1, 1⟩, ⟨4, 5, 1, 5, 0⟩]
        ⟨0, 0, 0, 0, 0⟩).body_to_range_ratio = 0) :=
  detect_ratio_bounds [⟨1, 1, 1, 1, 1⟩, ⟨4, 5, 1, 5, 0⟩] ⟨0, 0, 0, 0, 0⟩ (by decide)

/-- C6: for every candle sequence of length at least 2 whose final candle
satisfies lower_wick > body*2.0 and close > open, the detector sets
has_bullish_pin = true and has_bearish_pin = false, and the pattern
confidence is at least the bullish-pin confidence candidate
min(60 + (lowerWick/totalRange*100)*0.3, 80)/100 (0.60 when the range is
not positive). -/
theorem detect_bullish_pin (candles : List Candle) (context : TokenContext)
    (h2 : 2 ≤ candles.length)
    (hw : body (candles.getLastD dummyCandle) * 2.0 < lower_wick (candles.getLastD dummyCandle))
    (hb : (candles.getLastD dummyCandle).«open» < (candles.getLastD dummyCandle).close) :
    (detect_candlestick_patterns candles context).has_bullish_pin = true ∧
    (detect_candlestick_patterns candles context).has_bearish_pin = false ∧
    bullish_pin_candidate (candles.getLastD dummyCandle) ≤
      (detect_candlestick_patterns candles context).pattern_confidence := by
  have hlen : ¬ candles.length < 2 := by omega
  have hnb : ¬ (candles.getLastD dummyCandle).close < (candles.getLastD dummyCandle).«open» :=
    not_lt.mpr hb.le
  simp only [detect_candlestick_patterns, if_neg hlen, bullish_pin_candidate, hw, hb, hnb,
    decide_True, decide_False, Bool.and_true, Bool.and_false, Bool.true_and, Bool.false_and,
    Bool.false_eq_true, eq_self_iff_true, if_true, if_false]
  refine ⟨trivial, trivial, ?_⟩
  by_cases htr : 0 < total_range (candles.getLastD dummyCandle)
  · simp only [if_pos htr]
    split_ifs
    · exact le_trans (le_max_right 0 _) (le_max_left _ _)
    · exact le_max_right 0 _
  · simp only [if_neg htr]
    split_ifs <;> norm_num [min_def, max_def]

/-- Witness for C6: the spec's synthetic bullish candle with
lowerWick = 3×body and no upper wick (open 4, high 5, low 1, close 5). -/
theorem detect_bullish_pin_witness :
    (detect_candlestick_patterns [⟨1, 1, 1, 1, 1⟩, ⟨4, 5, 1, 5, 0⟩]
        ⟨0, 0, 0, 0, 0⟩).has_bullish_pin = true ∧
    (detect_candlestick_patterns [⟨1, 1, 1, 1, 1⟩, ⟨4, 5, 1, 5, 0⟩]
        ⟨0, 0, 0, 0, 0⟩).has_bearish_pin = false ∧
    bullish_pin_candidate (([⟨1, 1, 1, 1, 1⟩, ⟨4, 5, 1, 5, 0⟩] : List Candle).getLastD
        dummyCandle) ≤
      (detect_candlestick_patterns [⟨1, 1, 1, 1, 1⟩, ⟨4, 5, 1, 5, 0⟩]
        ⟨0, 0, 0, 0, 0⟩).pattern_confidence :=
  detect_bullish_pin [⟨1, 1, 1, 1, 1⟩, ⟨4, 5, 1, 5, 0⟩] ⟨0, 0, 0, 0, 0⟩ (by decide)
    (by norm_num [body, lower_wick, List.getLastD]) (by norm_num [List.getLastD])

/-- C1: the inference loop emits exactly one response per non-blank stripped
line and never terminates early; every stage failure (parse, preprocessing,
model invocation) is converted to an in-band response carrying the error
description and the fail-closed defaults profitable 0, max_profit 0,
rug_risk 1, confidence 0. -/
theorem inference_fail_closed (parse : String → Except String RawRequest)
    (s : Scalers) (model : Model) (lines : List String) :
    run parse s model lines
      = ((lines.map strip).filter (fun l => l ≠ "")).map (handle_line parse s model) ∧
    (∀ line e, parse line = .error e →
      handle_line parse s model line = errorResponse ("Invalid JSON: " ++ e)) ∧
    (∀ req e, preprocess s req = .error e → predict s model req = errorResponse e) ∧
    (∀ req c comb e, preprocess s req = .ok (c, comb) → model c comb = .error e →
      predict s model req = errorResponse e) ∧
    (∀ e, (errorResponse e).error = some e ∧ (errorResponse e).profitable = 0 ∧
      (errorResponse e).max_profit = 0 ∧ (errorResponse e).rug_risk = 1 ∧
      (errorResponse e).confidence = 0) := by
  refine ⟨?_, ?_, ?_, ?_, ?_⟩
  · induction lines with
    | nil => rfl
    | cons l rest ih =>
      by_cases hl : strip l = ""
      · simp [run, hl, ih]
      · simp [run, hl, ih]
  · intro line e h
    simp [handle_line, h]
  · intro req e h
    simp [predict, h]
  · intro req c comb e h1 h2
    simp [predict, h1, h2]
  · intro e
    exact ⟨rfl, rfl, rfl, rfl, rfl⟩

/-- Witness for C1 at a concrete input list: a blank line and a line whose
parse fails produce exactly one fail-closed response. -/
theorem inference_fail_closed_witness :
    handle_line stubParse identityScalers stubModel "bad"
      = errorResponse ("Invalid JSON: " ++ "stub") ∧
    run stubParse identityScalers stubModel ["", "bad"]
      = ((["", "bad"].map strip).filter (fun l => l ≠ "")).map
          (handle_line stubParse identityScalers stubModel) ∧
    (errorResponse "stub").error = some "stub" ∧
    (errorResponse "stub").profitable = 0 ∧ (errorResponse "stub").max_profit = 0 ∧
    (errorResponse "stub").rug_risk = 1 ∧ (errorResponse "stub").confidence = 0 := by
  have h := inference_fail_closed stubParse identityScalers stubModel ["", "bad"]
  exact ⟨h.2.1 "bad" "stub" rfl, h.1, (h.2.2.2.2 "stub").1, (h.2.2.2.2 "stub").2.1,
    (h.2.2.2.2 "stub").2.2.1, (h.2.2.2.2 "stub").2.2.2.1, (h.2.2.2.2 "stub").2.2.2.2⟩

/-- C10: an input line that strips to the empty string produces no response
at all; the loop proceeds directly to the rest of the input. -/
theorem blank_line_skipped (parse : String → Except String RawRequest)
    (s : Scalers) (model : Model) (line : String) (rest : List String)
    (h : strip line = "") :
    run parse s model (line :: rest) = run parse s model rest ∧
    run parse s model [line] = [] := by
  constructor
  · simp [run, h]
  · simp [run, h]

/-- Witness for C10 at a whitespace-only line. -/
theorem blank_line_skipped_witness :
    run stubParse identityScalers stubModel ["   ", "x"]
      = run stubParse identityScalers stubModel ["x"] ∧
    run stubParse identityScalers stubModel ["   "] = [] :=
  blank_line_skipped stubParse identityScalers stubModel "   " ["x"] (by decide)

/-- C7: for every request processed without error, the response equals the
success response built from the model's returned scores, whose confidence is
(|profitableScore-0.5|*2 + |rugScore-0.5|*2)/2; in particular the success
response for the stub scores (0.7, 4.0, 0.05) is {profitable 0.7,
max_profit 4.0, rug_risk 0.05, confidence 0.65}. -/
theorem predict_success (s : Scalers) (model : Model) (raw : RawRequest)
    (c : List (List ℚ)) (comb : List ℚ) (p mp r : ℚ)
    (hpre : preprocess s raw = .ok (c, comb))
    (hmodel : model c comb = .ok (p, mp, r)) :
    predict s model raw = successResponse p mp r ∧
    (predict s model raw).confidence = (|p - 0.5| * 2 + |r - 0.5| * 2) / 2 ∧
    successResponse 0.7 4.0 0.05
      = { error := none, profitable := 0.7, max_profit := 4.0, rug_risk := 0.05,
          confidence := 0.65 } := by
  have h1 : predict s model raw = successResponse p mp r := by
    simp [predict, hpre, hmodel]
  have e1 : |(0.7 : ℚ) - 0.5| = 0.2 := by rw [abs_of_nonneg] <;> norm_num
  have e2 : |(0.05 : ℚ) - 0.5| = 0.45 := by rw [abs_of_nonpos] <;> norm_num
  refine ⟨h1, by rw [h1]; rfl, ?_⟩
  simp only [successResponse, e1, e2]
  norm_num

/-- Witness for C7: the end-to-end example of spec §8 with identity scalers
and the stub model. -/
theorem predict_success_witness :
    predict identityScalers stubModel exampleRequest = successResponse 0.7 4.0 0.05 ∧
    (predict identityScalers stubModel exampleRequest).confidence
      = (|(0.7 : ℚ) - 0.5| * 2 + |(0.05 : ℚ) - 0.5| * 2) / 2 ∧
    successResponse 0.7 4.0 0.05
      = { error := none, profitable := 0.7, max_profit := 4.0, rug_risk := 0.05,
          confidence := 0.65 } :=
  predict_success identityScalers stubModel exampleRequest
    (List.replicate 100 [0.001, 0.0012, 0.0009, 0.0011, 1000])
    ([500000, 1000000, 150, 2.5, 250000] ++ [55, 0.0001, 0.0011, 0.001, 0.05]
      ++ [1, 0, 1, 0, 3.5, 0.7, 0.75, 0.6])
    0.7 4.0 0.05 (by decide!) rfl

/-- C8: exporting the fitted scaler parameters to the structured document and
importing them back yields a transform that agrees exactly with the original
in-memory transform on every input row of matching width, hence within the
1e-6 tolerance on every feature. -/
theorem scaler_roundtrip (s : Scalers) (crow xrow irow : List ℚ)
    (hc : crow.length = s.candle_scaler.n_features_in_)
    (hx : xrow.length = s.context_scaler.n_features_in_)
    (hi : irow.length = s.indicator_scaler.n_features_in_) :
    robustTransformRow s.candle_scaler crow
      = .ok (json_robust_transform (convert_scalers s).candle_scaler crow) ∧
    standardTransformRow s.context_scaler xrow
      = .ok (json_standard_transform (convert_scalers s).context_scaler xrow) ∧
    standardTransformRow s.indicator_scaler irow
      = .ok (json_standard_transform (convert_scalers s).indicator_scaler irow) ∧
    (∀ i : ℕ,
      |(json_robust_transform (convert_scalers s).candle_scaler crow).getD i 0
        - (scaleRow s.candle_scaler.center_ s.candle_scaler.scale_ crow).getD i 0|
        ≤ 1 / 1000000) ∧
    (∀ i : ℕ,
      |(json_standard_transform (convert_scalers s).context_scaler xrow).getD i 0
        - (scaleRow s.context_scaler.mean_ s.context_scaler.scale_ xrow).getD i 0|
        ≤ 1 / 1000000) ∧
    (∀ i : ℕ,
      |(json_standard_transform (convert_scalers s).indicator_scaler irow).getD i 0
        - (scaleRow s.indicator_scaler.mean_ s.indicator_scaler.scale_ irow).getD i 0|
        ≤ 1 / 1000000) := by
  refine ⟨?_, ?_, ?_, ?_, ?_, ?_⟩
  · simp [robustTransformRow, json_robust_transform, convert_scalers, scaleRow, hc]
  · simp [standardTransformRow, json_standard_transform, convert_scalers, scaleRow, hx]
  · simp [standardTransformRow, json_standard_transform, convert_scalers, scaleRow, hi]
  · intro i
    simp [json_robust_transform, convert_scalers]
  · intro i
    simp [json_standard_transform, convert_scalers]
  · intro i
    simp [json_standard_transform, convert_scalers]

/-- Witness for C8 at concrete identity scalers and a concrete width-5 row. -/
theorem scaler_roundtrip_witness :
    robustTransformRow identityScalers.candle_scaler [1, 2, 3, 4, 5]
      = .ok (json_robust_transform (convert_scalers identityScalers).candle_scaler
          [1, 2, 3, 4, 5]) ∧
    standardTransformRow identityScalers.context_scaler [1, 2, 3, 4, 5]
      = .ok (json_standard_transform (convert_scalers identityScalers).context_scaler
          [1, 2, 3, 4, 5]) ∧
    standardTransformRow identityScalers.indicator_scaler [1, 2, 3, 4, 5]
      = .ok (json_standard_transform (convert_scalers identityScalers).indicator_scaler
          [1, 2, 3, 4, 5]) ∧
    (∀ i : ℕ,
      |(json_robust_transform (convert_scalers identityScalers).candle_scaler
          [1, 2, 3, 4, 5]).getD i 0
        - (scaleRow identityScalers.candle_scaler.center_
            identityScalers.candle_scaler.scale_ [1, 2, 3, 4, 5]).getD i 0|
        ≤ 1 / 1000000) ∧
    (∀ i : ℕ,
      |(json_standard_transform (convert_scalers identityScalers).context_scaler
          [1, 2, 3, 4, 5]).getD i 0
        - (scaleRow identityScalers.context_scaler.mean_
            identityScalers.context_scaler.scale_ [1, 2, 3, 4, 5]).getD i 0|
        ≤ 1 / 1000000) ∧
    (∀ i : ℕ,
      |(json_standard_transform (convert_scalers identityScalers).indicator_scaler
          [1, 2, 3, 4, 5]).getD i 0
        - (scaleRow identityScalers.indicator_scaler.mean_
            identityScalers.indicator_scaler.scale_ [1, 2, 3, 4, 5]).getD i 0|
        ≤ 1 / 1000000) :=
  scaler_roundtrip identityScalers [1, 2, 3, 4, 5] [1, 2, 3, 4, 5] [1, 2, 3, 4, 5]
    (by decide) (by decide) (by decide)

/-- C9: an example whose patterns field is absent is assembled with the
8-length zero vector substituted for the pattern group, and the combined row
still has the full length 18; assembly never aborts on a missing patterns
field. -/
theorem missing_patterns_fallback (e : TrainingExample) (h : e.patterns = none)
    (context_scaled indicators_scaled : List ℚ)
    (hc : context_scaled.length = 5) (hi : indicators_scaled.length = 5) :
    pattern_vector e = List.replicate 8 0 ∧
    (combined_row context_scaled indicators_scaled (pattern_vector e)).length = 18 := by
  have hp : pattern_vector e = List.replicate 8 0 := by
    simp [pattern_vector, h]
  exact ⟨hp, by simp [combined_row, hp, hc, hi]⟩

/-- Witness for C9 at a concrete patternless example. -/
theorem missing_patterns_fallback_witness :
    pattern_vector exampleA = List.replicate 8 0 ∧
    (combined_row (List.replicate 5 0) (List.replicate 5 0)
      (pattern_vector exampleA)).length = 18 :=
  missing_patterns_fallback exampleA rfl (List.replicate 5 0) (List.replicate 5 0) rfl rfl

/-- C2 evidence: the context scaler statistics recorded by
`load_and_preprocess` are computed over the whole dataset, fitted before the
train/val/test split, so an example outside the training split does
contribute: with a two-example dataset the fitted mean is the mean of both
context vectors, and changing only the second (non-training) example changes
the fitted statistic. -/
theorem context_fit_mean_uses_all_examples :
    context_fit_mean [exampleA, exampleB] = [1, 1, 1, 1, 1] ∧
    context_fit_mean [exampleA] = [0, 0, 0, 0, 0] ∧
    context_fit_mean [exampleA, exampleB] ≠ context_fit_mean [exampleA, exampleA] := by
  refine ⟨?_, ?_, ?_⟩ <;> decide!

end SnipeBT
